import Mathlib

/-!
Shallow embedding of the account-orchestration core of the tessa server.

The embedding covers, translated statement by statement from the TypeScript
source:

* the stored record shapes of the two Mongoose collections
  (src/modules/users/user.model.ts, src/modules/owners/owner.model.ts);
* UserService and OwnerService (user.service.ts, owner.service.ts);
* UserOrchestrator with its four workflows
  (src/orchestrators/users/user.orchestrator.ts);
* the owner-deletion and role-update HTTP handlers (owner.controller.ts,
  user.controller.ts).

Modelling conventions:

* MongoDB ObjectIds are modelled as natural numbers; the id freshly generated
  by the orchestrator (new Types.ObjectId()) is passed in as an explicit
  parameter, externalising that source of nondeterminism.
* The two collections live in one state record, Db, together with a logical
  clock; Mongoose timestamps (createdAt) are modelled by stamping the clock
  value at insertion and ticking the clock.  updatedAt is not modelled: no
  claim mentions it.
* findByIdAndDelete removes the document with the given _id; MongoDB's
  unique _id index guarantees at most one such document, so removal is
  modelled with a filter.
* The external identity provider (Firebase) is an oracle, Fb, saying which
  createUser / deleteUser calls succeed; its errors are opaque to the
  orchestrator, which only catches them, so they are modelled by a single
  constructor.  Every identity-provider call that the code reaches is
  recorded in a trace, whether it succeeds or fails.
* Thrown ApiError values and try/catch control flow are modelled with
  Except and explicit matches; each match branch mirrors one control-flow
  path of the source.
-/

/-- HTTP status code used by the source via the http-status package. -/
def CONFLICT : Nat := 409

/-- HTTP status code used by the source via the http-status package. -/
def NOT_FOUND : Nat := 404

/-- HTTP status code used by the source via the http-status package. -/
def INTERNAL_SERVER_ERROR : Nat := 500

/-- HTTP status code used by the source via the http-status package. -/
def NO_CONTENT : Nat := 204

/-- ApiError from src/modules/errors: an HTTP status code plus a message. -/
structure ApiError where
  status : Nat
  message : String
deriving DecidableEq, Repr

/-- An error raised inside a workflow: either an ApiError thrown by this
codebase, or an opaque error coming out of the firebase-admin SaaS client
(the orchestrator never inspects those, it only catches them). -/
inductive Err where
  | api : ApiError → Err
  | provider : Err
deriving DecidableEq, Repr

/-- UserRole enum from user.interface.ts: MANAGER | EMPLOYEE. -/
inductive UserRole where
  | MANAGER
  | EMPLOYEE
deriving DecidableEq, Repr

/-- A document of the users collection, per UserSchema in user.model.ts.
The schema has no password path, but IUser (the service input type) carries
an optional password, so the stored shape keeps the field to let theorems
talk about it; every writer in the source supplies it as undefined (none). -/
structure StoredUser where
  id : Nat
  ownerId : Nat
  name : String
  email : String
  role : UserRole
  password : Option String
  createdAt : Nat
deriving DecidableEq, Repr

/-- A document of the owners collection, per OwnerSchema in owner.model.ts.
The role path is a plain string defaulting to OWNER; no credential field
exists in IOwner or in the schema. -/
structure StoredOwner where
  id : Nat
  name : String
  email : String
  role : String
  createdAt : Nat
deriving DecidableEq, Repr

/-- The persistent state: the two MongoDB collections plus a logical clock
standing in for the wall clock that Mongoose timestamps read. -/
structure Db where
  users : List StoredUser
  owners : List StoredOwner
  clock : Nat
deriving DecidableEq, Repr

/-- Input shape of UserService.createUser: an IUser with the explicit _id
chosen by the caller (the orchestrator always supplies one). -/
structure UserIn where
  id : Nat
  ownerId : Nat
  name : String
  email : String
  role : UserRole
  password : Option String
deriving DecidableEq, Repr

/-- Input shape of OwnerService.createOwner as the orchestrator calls it:
_id, name and email only (role and createdAt come from schema defaults). -/
structure OwnerIn where
  id : Nat
  name : String
  email : String
deriving DecidableEq, Repr

/-- UserService.createUser (user.service.ts): rejects with 409 when some
user already has the given email (the findOne email check), otherwise
inserts the document, stamping createdAt, and returns the stored record. -/
def UserService.createUser (u : UserIn) (db : Db) : Except Err (StoredUser × Db) :=
  if db.users.any (fun r => r.email == u.email) then
    .error (.api ⟨CONFLICT, "User with this email already exists"⟩)
  else
    .ok (⟨u.id, u.ownerId, u.name, u.email, u.role, u.password, db.clock⟩,
      ⟨db.users ++ [⟨u.id, u.ownerId, u.name, u.email, u.role, u.password, db.clock⟩],
        db.owners, db.clock + 1⟩)

/-- UserService.getUserById (user.service.ts): findById, throwing 404
"User not found" when absent. -/
def UserService.getUserById (id : Nat) (db : Db) : Except Err StoredUser :=
  match db.users.find? (fun r => r.id == id) with
  | none => .error (.api ⟨NOT_FOUND, "User not found"⟩)
  | some u => .ok u

/-- UserService.updateUserRole (user.service.ts): findByIdAndUpdate of the
role path, throwing 404 "User not found" when absent, returning the updated
document. -/
def UserService.updateUserRole (id : Nat) (role : UserRole) (db : Db) :
    Except Err (StoredUser × Db) :=
  match db.users.find? (fun r => r.id == id) with
  | none => .error (.api ⟨NOT_FOUND, "User not found"⟩)
  | some u =>
    .ok ({ u with role := role },
      ⟨db.users.map (fun r => if r.id == id then { u with role := role } else r),
        db.owners, db.clock⟩)

/-- UserService.deleteUser (user.service.ts): findByIdAndDelete, throwing
404 "User not found" when no user has that id. -/
def UserService.deleteUser (id : Nat) (db : Db) : Except Err Db :=
  if db.users.any (fun r => r.id == id) then
    .ok ⟨db.users.filter (fun r => !(r.id == id)), db.owners, db.clock⟩
  else
    .error (.api ⟨NOT_FOUND, "User not found"⟩)

/-- OwnerService.createOwner (owner.service.ts): rejects with 409 when some
owner already has the given email, otherwise inserts the document with the
schema defaults (role OWNER, createdAt stamped) and returns it. -/
def OwnerService.createOwner (o : OwnerIn) (db : Db) : Except Err (StoredOwner × Db) :=
  if db.owners.any (fun r => r.email == o.email) then
    .error (.api ⟨CONFLICT, "User with this email already exists"⟩)
  else
    .ok (⟨o.id, o.name, o.email, "OWNER", db.clock⟩,
      ⟨db.users, db.owners ++ [⟨o.id, o.name, o.email, "OWNER", db.clock⟩],
        db.clock + 1⟩)

/-- OwnerService.getOwnerById (owner.service.ts): findById, throwing 404
"User not found" when absent. -/
def OwnerService.getOwnerById (id : Nat) (db : Db) : Except Err StoredOwner :=
  match db.owners.find? (fun r => r.id == id) with
  | none => .error (.api ⟨NOT_FOUND, "User not found"⟩)
  | some o => .ok o

/-- OwnerService.deleteOwner (owner.service.ts): findByIdAndDelete, throwing
404 "User not found" when no owner has that id. -/
def OwnerService.deleteOwner (id : Nat) (db : Db) : Except Err Db :=
  if db.owners.any (fun r => r.id == id) then
    .ok ⟨db.users, db.owners.filter (fun r => !(r.id == id)), db.clock⟩
  else
    .error (.api ⟨NOT_FOUND, "User not found"⟩)

/-- One call made to the firebase-admin client (firebase.ts).  The class
exposes createUser, deleteUser and setCustomClaims; the trace records which
of them a workflow attempted, with its arguments. -/
inductive FbCall where
  | createIdentity (uid : Nat) (email : String) (password : Option String) (displayName : String)
  | deleteIdentity (uid : Nat)
  | setCustomClaims (uid : Nat) (role : String)
deriving DecidableEq, Repr

/-- True exactly on setCustomClaims calls. -/
def FbCall.isSetCustomClaims : FbCall → Bool
  | .setCustomClaims _ _ => true
  | _ => false

/-- Behaviour oracle for the external identity provider: which createUser
calls and which deleteUser calls succeed (failures are opaque provider
errors). -/
structure Fb where
  createOk : Nat → Bool
  deleteOk : Nat → Bool

/-- Outcome of one orchestrator workflow run: the value or error the caller
observes, the final database state, and the trace of identity-provider
calls the workflow attempted (successful or not). -/
structure Run (α : Type) where
  result : Except Err α
  db : Db
  calls : List FbCall
deriving Repr

/-- Input of UserOrchestrator.createEmployeeWithFirebase: the destructured
fields of the request body (the source reads name, email, role, password,
ownerId from its IUser argument). -/
structure UserData where
  ownerId : Nat
  name : String
  email : String
  role : UserRole
  password : Option String
deriving DecidableEq, Repr

/-- Input of UserOrchestrator.createOwnerWithFirebase. -/
structure OwnerData where
  name : String
  email : String
  password : String
deriving DecidableEq, Repr

/-- UserOrchestrator.createEmployeeWithFirebase (user.orchestrator.ts).
userId is the freshly generated ObjectId.  Transcription of the source:
create the local record first; then call the identity provider; on any
thrown error, delete the local record when it was created (this rollback is
not wrapped in its own try/catch, so its error would escape) and throw
ApiError(500, "Failed to create user"). -/
def UserOrchestrator.createEmployeeWithFirebase (fb : Fb) (data : UserData)
    (userId : Nat) (db : Db) : Run StoredUser :=
  match UserService.createUser ⟨userId, data.ownerId, data.name, data.email, data.role, none⟩ db with
  | .error _ =>
    ⟨.error (.api ⟨INTERNAL_SERVER_ERROR, "Failed to create user"⟩), db, []⟩
  | .ok (createdUser, db1) =>
    if fb.createOk userId then
      ⟨.ok createdUser, db1, [.createIdentity userId data.email data.password data.name]⟩
    else
      match UserService.deleteUser userId db1 with
      | .ok db2 =>
        ⟨.error (.api ⟨INTERNAL_SERVER_ERROR, "Failed to create user"⟩), db2,
          [.createIdentity userId data.email data.password data.name]⟩
      | .error e =>
        ⟨.error e, db1,
          [.createIdentity userId data.email data.password data.name]⟩

/-- UserOrchestrator.createOwnerWithFirebase (user.orchestrator.ts).
Transcription of the source, including the fact that the catch branch rolls
back with UserService.deleteUser (the users collection), not
OwnerService.deleteOwner, and that this rollback call is not wrapped in its
own try/catch. -/
def UserOrchestrator.createOwnerWithFirebase (fb : Fb) (data : OwnerData)
    (userId : Nat) (db : Db) : Run StoredOwner :=
  match OwnerService.createOwner ⟨userId, data.name, data.email⟩ db with
  | .error _ =>
    ⟨.error (.api ⟨INTERNAL_SERVER_ERROR, "Failed to create user"⟩), db, []⟩
  | .ok (createdOwner, db1) =>
    if fb.createOk userId then
      ⟨.ok createdOwner, db1, [.createIdentity userId data.email (some data.password) data.name]⟩
    else
      match UserService.deleteUser userId db1 with
      | .ok db2 =>
        ⟨.error (.api ⟨INTERNAL_SERVER_ERROR, "Failed to create user"⟩), db2,
          [.createIdentity userId data.email (some data.password) data.name]⟩
      | .error e =>
        ⟨.error e, db1,
          [.createIdentity userId data.email (some data.password) data.name]⟩

/-- UserOrchestrator.deleteUser (user.orchestrator.ts).  Transcription:
fetch the record, delete it locally, then delete the identity; on a thrown
error, when the local delete had already happened, recreate the record from
the snapshot (without its createdAt: the payload lists _id, ownerId, name,
email, role only) inside an inner try/catch whose failure raises the
data-inconsistency ApiError; otherwise raise the generic delete ApiError. -/
def UserOrchestrator.deleteUser (fb : Fb) (id : Nat) (db : Db) : Run Unit :=
  match UserService.getUserById id db with
  | .error _ =>
    ⟨.error (.api ⟨INTERNAL_SERVER_ERROR, "Failed to delete user"⟩), db, []⟩
  | .ok user =>
    match UserService.deleteUser id db with
    | .error _ =>
      ⟨.error (.api ⟨INTERNAL_SERVER_ERROR, "Failed to delete user"⟩), db, []⟩
    | .ok db1 =>
      if fb.deleteOk id then
        ⟨.ok (), db1, [.deleteIdentity id]⟩
      else
        match UserService.createUser ⟨user.id, user.ownerId, user.name, user.email, user.role, none⟩ db1 with
        | .ok (_, db2) =>
          ⟨.error (.api ⟨INTERNAL_SERVER_ERROR, "Failed to delete user"⟩), db2,
            [.deleteIdentity id]⟩
        | .error _ =>
          ⟨.error (.api ⟨INTERNAL_SERVER_ERROR,
              "Failed to delete user and rollback failed. Data inconsistency detected."⟩),
            db1, [.deleteIdentity id]⟩

/-- UserOrchestrator.deleteOwner (user.orchestrator.ts): same protocol on
the owners collection, recreating from the snapshot with _id, name, email
only; both error messages are shared with the user path verbatim. -/
def UserOrchestrator.deleteOwner (fb : Fb) (id : Nat) (db : Db) : Run Unit :=
  match OwnerService.getOwnerById id db with
  | .error _ =>
    ⟨.error (.api ⟨INTERNAL_SERVER_ERROR, "Failed to delete user"⟩), db, []⟩
  | .ok owner =>
    match OwnerService.deleteOwner id db with
    | .error _ =>
      ⟨.error (.api ⟨INTERNAL_SERVER_ERROR, "Failed to delete user"⟩), db, []⟩
    | .ok db1 =>
      if fb.deleteOk id then
        ⟨.ok (), db1, [.deleteIdentity id]⟩
      else
        match OwnerService.createOwner ⟨owner.id, owner.name, owner.email⟩ db1 with
        | .ok (_, db2) =>
          ⟨.error (.api ⟨INTERNAL_SERVER_ERROR, "Failed to delete user"⟩), db2,
            [.deleteIdentity id]⟩
        | .error _ =>
          ⟨.error (.api ⟨INTERNAL_SERVER_ERROR,
              "Failed to delete user and rollback failed. Data inconsistency detected."⟩),
            db1, [.deleteIdentity id]⟩

/-- An HTTP response as far as the claims need it: a status code and
whether a body is sent. -/
structure HttpResponse where
  status : Nat
  body : Option String
deriving DecidableEq, Repr

/-- OwnerController.delete (owner.controller.ts): invokes
UserOrchestrator.deleteOwner WITHOUT await and immediately answers 204 No
Content with an empty body; the workflow's outcome (value or error) is
discarded, only its side effects on the stores happen. -/
def OwnerController.delete (fb : Fb) (id : Nat) (db : Db) :
    HttpResponse × Db × List FbCall :=
  (⟨NO_CONTENT, none⟩, (UserOrchestrator.deleteOwner fb id db).db,
    (UserOrchestrator.deleteOwner fb id db).calls)

/-- UserController.updateRole (user.controller.ts): calls
UserService.updateUserRole and answers 200; the handler performs no
identity-provider call, hence the empty trace. -/
def UserController.updateRole (id : Nat) (role : UserRole) (db : Db) :
    Except Err (StoredUser × Db) × List FbCall :=
  (UserService.updateUserRole id role db, [])

/-- Identity-provider oracle on which every call succeeds. -/
def fbAllOk : Fb := ⟨fun _ => true, fun _ => true⟩

/-- Identity-provider oracle on which every call fails. -/
def fbAllFail : Fb := ⟨fun _ => false, fun _ => false⟩

/-- Identity-provider oracle on which creations succeed and deletions fail. -/
def fbDeleteFails : Fb := ⟨fun _ => true, fun _ => false⟩

/-- Database state that is empty apart from one user with id 7, used to
exhibit the owner-create rollback hitting the users collection. -/
def c1Db : Db := ⟨[⟨7, 1, "Eve", "eve@example.com", .EMPLOYEE, none, 0⟩], [], 1⟩

/-- Database state holding one user whose createdAt is 0 while the clock
has advanced to 5, used to exhibit the delete-rollback timestamp drift. -/
def c2Db : Db := ⟨[⟨2, 1, "Bob", "bob@example.com", .EMPLOYEE, none, 0⟩], [], 5⟩

/-- Database state with a user and an owner already holding the emails the
duplicate-create attempts will reuse. -/
def c3Db : Db :=
  ⟨[⟨1, 1, "Eve", "dup@example.com", .EMPLOYEE, none, 0⟩],
    [⟨2, "Oya", "own@example.com", "OWNER", 0⟩], 1⟩

/-- The empty database. -/
def emptyDb : Db := ⟨[], [], 0⟩

/-- Database states with two records sharing one email (the recreation of
the deleted one then hits the duplicate-email check and fails), used to
drive the delete workflows into their data-inconsistency branch. -/
def c6DbUsers : Db :=
  ⟨[⟨2, 1, "Bob", "dup@example.com", .EMPLOYEE, none, 0⟩,
    ⟨3, 1, "Eve", "dup@example.com", .EMPLOYEE, none, 0⟩], [], 5⟩

/-- Owner-side variant of c6DbUsers. -/
def c6DbOwners : Db :=
  ⟨[], [⟨2, "Bob", "dup@example.com", "OWNER", 0⟩,
    ⟨3, "Eve", "dup@example.com", "OWNER", 0⟩], 5⟩

/-- Helper: find? skips a prefix on which the predicate is false everywhere. -/
theorem find?_append_eq_right {α : Type} (p : α → Bool) (l₁ l₂ : List α)
    (h : ∀ x ∈ l₁, p x = false) : (l₁ ++ l₂).find? p = l₂.find? p := by
  induction l₁ with
  | nil => rfl
  | cons a t ih =>
    have ha : p a = false := h a (List.mem_cons_self a t)
    simp only [List.cons_append, List.find?, ha]
    exact ih (fun x hx => h x (List.mem_cons_of_mem a hx))

/-- Claim C9: OwnerController.delete fires the deleteOwner workflow without
awaiting it and immediately replies 204 No Content with an empty body, for
every id and every database and identity-provider behaviour; in particular
no error the workflow raises (NotFound, generic failure, inconsistency) is
ever reflected in the owner-deletion HTTP response. -/
theorem owner_delete_endpoint_always_204 (fb : Fb) (id : Nat) (db : Db) :
    (OwnerController.delete fb id db).1 = ⟨NO_CONTENT, none⟩ := rfl

/-- Claim C3, evaluated at the failing input: creating a User, then an
Owner, with an email already present in the respective store makes the
local create throw Conflict(409), yet the orchestrator's catch-all replaces
it with ApiError(500, "Failed to create user") instead of letting it
propagate unchanged; the abort itself is clean (no identity call, store
untouched).  The repository's own test suite expects 409 here. -/
theorem create_duplicate_email_conflict_swallowed :
    (UserOrchestrator.createEmployeeWithFirebase fbAllOk
        ⟨1, "New", "dup@example.com", .EMPLOYEE, some "Pw123456"⟩ 9 c3Db).result
      = .error (.api ⟨INTERNAL_SERVER_ERROR, "Failed to create user"⟩) ∧
    (UserOrchestrator.createEmployeeWithFirebase fbAllOk
        ⟨1, "New", "dup@example.com", .EMPLOYEE, some "Pw123456"⟩ 9 c3Db).calls = [] ∧
    (UserOrchestrator.createEmployeeWithFirebase fbAllOk
        ⟨1, "New", "dup@example.com", .EMPLOYEE, some "Pw123456"⟩ 9 c3Db).db = c3Db ∧
    (UserOrchestrator.createOwnerWithFirebase fbAllOk
        ⟨"New", "own@example.com", "Pw123456"⟩ 9 c3Db).result
      = .error (.api ⟨INTERNAL_SERVER_ERROR, "Failed to create user"⟩) ∧
    (UserOrchestrator.createOwnerWithFirebase fbAllOk
        ⟨"New", "own@example.com", "Pw123456"⟩ 9 c3Db).calls = [] ∧
    (UserOrchestrator.createOwnerWithFirebase fbAllOk
        ⟨"New", "own@example.com", "Pw123456"⟩ 9 c3Db).db = c3Db := by
  refine ⟨rfl, rfl, rfl, rfl, rfl, rfl⟩

/-- Claim C4, evaluated at the failing input: deleting a User, then an
Owner, by an id that exists in neither store.  No identity-provider delete
is attempted (second conjunct of the claim holds), but the service's
NotFound(404) is replaced by ApiError(500, "Failed to delete user") by the
catch-all instead of propagating unchanged.  The repository's own test
suite expects 404 here. -/
theorem delete_missing_id_not_found_swallowed :
    (UserOrchestrator.deleteUser fbAllOk 5 emptyDb).result
      = .error (.api ⟨INTERNAL_SERVER_ERROR, "Failed to delete user"⟩) ∧
    (UserOrchestrator.deleteUser fbAllOk 5 emptyDb).calls = [] ∧
    (UserOrchestrator.deleteUser fbAllOk 5 emptyDb).db = emptyDb ∧
    (UserOrchestrator.deleteOwner fbAllOk 5 emptyDb).result
      = .error (.api ⟨INTERNAL_SERVER_ERROR, "Failed to delete user"⟩) ∧
    (UserOrchestrator.deleteOwner fbAllOk 5 emptyDb).calls = [] ∧
    (UserOrchestrator.deleteOwner fbAllOk 5 emptyDb).db = emptyDb := by
  refine ⟨rfl, rfl, rfl, rfl, rfl, rfl⟩

/-- Claim C1, evaluated at the failing input: an Owner creation whose
identity step fails compensates by deleting from the users collection
(UserService.deleteUser) instead of the owners collection.  With a user
record under the generated id 7 present, that compensating delete succeeds
and the generic create error is raised, yet getOwnerById still finds the
just-created Owner afterwards (the claim expects NotFound) - and the
unrelated user under id 7 has been destroyed instead. -/
theorem owner_create_rollback_leaves_owner_behind :
    (UserOrchestrator.createOwnerWithFirebase fbAllFail
        ⟨"Olive", "olive@example.com", "Pw123456"⟩ 7 c1Db).result
      = .error (.api ⟨INTERNAL_SERVER_ERROR, "Failed to create user"⟩) ∧
    OwnerService.getOwnerById 7
        (UserOrchestrator.createOwnerWithFirebase fbAllFail
          ⟨"Olive", "olive@example.com", "Pw123456"⟩ 7 c1Db).db
      = .ok ⟨7, "Olive", "olive@example.com", "OWNER", 1⟩ ∧
    UserService.getUserById 7
        (UserOrchestrator.createOwnerWithFirebase fbAllFail
          ⟨"Olive", "olive@example.com", "Pw123456"⟩ 7 c1Db).db
      = .error (.api ⟨NOT_FOUND, "User not found"⟩) := by
  refine ⟨rfl, rfl, rfl⟩

/-- Claim C5, evaluated at the failing input: an Owner creation on empty
stores whose identity step fails.  The compensating UserService.deleteUser
hits the (empty) users collection, throws NotFound(404, "User not found"),
and - the rollback call not being wrapped in its own try/catch - that error
escapes to the caller in place of the single generic create error the claim
promises; the orphaned Owner record is left behind. -/
theorem owner_create_rollback_error_escapes :
    (UserOrchestrator.createOwnerWithFirebase fbAllFail
        ⟨"Oli", "oli@example.com", "Pw123456"⟩ 3 emptyDb).result
      = .error (.api ⟨NOT_FOUND, "User not found"⟩) ∧
    OwnerService.getOwnerById 3
        (UserOrchestrator.createOwnerWithFirebase fbAllFail
          ⟨"Oli", "oli@example.com", "Pw123456"⟩ 3 emptyDb).db
      = .ok ⟨3, "Oli", "oli@example.com", "OWNER", 0⟩ := by
  refine ⟨rfl, rfl⟩

/-- Claim C2, counterexample: deleting user 2 from c2Db (snapshot createdAt
0, clock 5) with the identity deletion failing and the compensating
recreation succeeding leaves a record whose createdAt is the fresh clock
value 5, not the snapshot's 0: round-trip equality of all stored
attributes, creation timestamp included, fails at this input. -/
theorem delete_rollback_changes_createdAt :
    UserService.getUserById 2 (UserOrchestrator.deleteUser fbDeleteFails 2 c2Db).db
      = .ok ⟨2, 1, "Bob", "bob@example.com", .EMPLOYEE, none, 5⟩ ∧
    (⟨2, 1, "Bob", "bob@example.com", .EMPLOYEE, none, 5⟩ : StoredUser)
      ≠ ⟨2, 1, "Bob", "bob@example.com", .EMPLOYEE, none, 0⟩ := by
  exact ⟨rfl, by decide⟩

/-- Claim C7: when the requested email is already in use by a record of the
same kind, the create workflow makes zero identity-provider calls (the
local create throws Conflict before FirebaseService.createUser is reached),
for Users and for Owners alike. -/
theorem duplicate_email_no_identity_call :
    (∀ (fb : Fb) (data : UserData) (userId : Nat) (db : Db),
      db.users.any (fun r => r.email == data.email) = true →
      (UserOrchestrator.createEmployeeWithFirebase fb data userId db).calls = []) ∧
    (∀ (fb : Fb) (data : OwnerData) (userId : Nat) (db : Db),
      db.owners.any (fun r => r.email == data.email) = true →
      (UserOrchestrator.createOwnerWithFirebase fb data userId db).calls = []) := by
  constructor
  · intro fb data userId db h
    simp [UserOrchestrator.createEmployeeWithFirebase, UserService.createUser, h]
  · intro fb data userId db h
    simp [UserOrchestrator.createOwnerWithFirebase, OwnerService.createOwner, h]

/-- Witness for duplicate_email_no_identity_call at concrete inputs. -/
theorem duplicate_email_no_identity_call_witness :
    (UserOrchestrator.createEmployeeWithFirebase fbAllOk
        ⟨1, "New", "dup@example.com", .EMPLOYEE, some "Pw123456"⟩ 11 c3Db).calls = [] ∧
    (UserOrchestrator.createOwnerWithFirebase fbAllOk
        ⟨"New", "own@example.com", "Pw123456"⟩ 11 c3Db).calls = [] :=
  ⟨duplicate_email_no_identity_call.1 fbAllOk
      ⟨1, "New", "dup@example.com", .EMPLOYEE, some "Pw123456"⟩ 11 c3Db (by decide),
    duplicate_email_no_identity_call.2 fbAllOk
      ⟨"New", "own@example.com", "Pw123456"⟩ 11 c3Db (by decide)⟩

/-- Claim C8: a create workflow that succeeds never returns the password.
For Users, the returned record's password field is none (the orchestrator
builds the local payload without the password).  For Owners, the returned
record is exactly the stored owner document - id, name, email, the OWNER
role and the timestamp - which has no credential field at all. -/
theorem create_success_returns_no_password :
    (∀ (fb : Fb) (data : UserData) (userId : Nat) (db : Db) (r : StoredUser),
      (UserOrchestrator.createEmployeeWithFirebase fb data userId db).result = .ok r →
      r.password = none) ∧
    (∀ (fb : Fb) (data : OwnerData) (userId : Nat) (db : Db) (r : StoredOwner),
      (UserOrchestrator.createOwnerWithFirebase fb data userId db).result = .ok r →
      r = ⟨userId, data.name, data.email, "OWNER", db.clock⟩) := by
  constructor
  · intro fb data userId db r h
    unfold UserOrchestrator.createEmployeeWithFirebase at h
    cases hcu : UserService.createUser ⟨userId, data.ownerId, data.name, data.email, data.role, none⟩ db with
    | error e => simp only [hcu] at h; simp at h
    | ok p =>
      obtain ⟨created, db1⟩ := p
      simp only [hcu] at h
      cases hfb : fb.createOk userId with
      | false =>
        simp only [hfb, Bool.false_eq_true, if_false] at h
        cases hdel : UserService.deleteUser userId db1 with
        | ok db2 => simp only [hdel] at h; simp at h
        | error e => simp only [hdel] at h; simp at h
      | true =>
        simp only [hfb, if_true] at h
        have hr : created = r := by simpa using h
        unfold UserService.createUser at hcu
        split at hcu
        · simp at hcu
        · simp only [Except.ok.injEq, Prod.mk.injEq] at hcu
          rw [← hr, ← hcu.1]
  · intro fb data userId db r h
    unfold UserOrchestrator.createOwnerWithFirebase at h
    cases hcu : OwnerService.createOwner ⟨userId, data.name, data.email⟩ db with
    | error e => simp only [hcu] at h; simp at h
    | ok p =>
      obtain ⟨created, db1⟩ := p
      simp only [hcu] at h
      cases hfb : fb.createOk userId with
      | false =>
        simp only [hfb, Bool.false_eq_true, if_false] at h
        cases hdel : UserService.deleteUser userId db1 with
        | ok db2 => simp only [hdel] at h; simp at h
        | error e => simp only [hdel] at h; simp at h
      | true =>
        simp only [hfb, if_true] at h
        have hr : created = r := by simpa using h
        unfold OwnerService.createOwner at hcu
        split at hcu
        · simp at hcu
        · simp only [Except.ok.injEq, Prod.mk.injEq] at hcu
          rw [← hr, ← hcu.1]

/-- Witness for create_success_returns_no_password at concrete inputs. -/
theorem create_success_returns_no_password_witness :
    (⟨9, 1, "Ann", "ann@example.com", .EMPLOYEE, none, 0⟩ : StoredUser).password = none ∧
    (⟨8, "Oli", "oli@example.com", "OWNER", 0⟩ : StoredOwner) =
      ⟨8, "Oli", "oli@example.com", "OWNER", emptyDb.clock⟩ :=
  ⟨create_success_returns_no_password.1 fbAllOk
      ⟨1, "Ann", "ann@example.com", .EMPLOYEE, some "Pw123456"⟩ 9 emptyDb
      ⟨9, 1, "Ann", "ann@example.com", .EMPLOYEE, none, 0⟩ rfl,
    create_success_returns_no_password.2 fbAllOk
      ⟨"Oli", "oli@example.com", "Pw123456"⟩ 8 emptyDb
      ⟨8, "Oli", "oli@example.com", "OWNER", 0⟩ rfl⟩

/-- Claim C10: no workflow of the orchestrator ever attempts a
setCustomClaims identity-provider call (every trace is free of such calls,
on every input, store state and provider behaviour), and the role-update
handler performs no identity-provider call at all. -/
theorem no_set_custom_claims_ever (fb : Fb) (udata : UserData) (odata : OwnerData)
    (uid uid2 id id2 id3 : Nat) (role : UserRole) (db : Db) :
    ((UserOrchestrator.createEmployeeWithFirebase fb udata uid db).calls.all
      (fun c => !c.isSetCustomClaims)) = true ∧
    ((UserOrchestrator.createOwnerWithFirebase fb odata uid2 db).calls.all
      (fun c => !c.isSetCustomClaims)) = true ∧
    ((UserOrchestrator.deleteUser fb id db).calls.all
      (fun c => !c.isSetCustomClaims)) = true ∧
    ((UserOrchestrator.deleteOwner fb id2 db).calls.all
      (fun c => !c.isSetCustomClaims)) = true ∧
    (UserController.updateRole id3 role db).2 = [] := by
  refine ⟨?_, ?_, ?_, ?_, rfl⟩
  · unfold UserOrchestrator.createEmployeeWithFirebase
    split
    · simp
    · split
      · simp [FbCall.isSetCustomClaims]
      · split <;> simp [FbCall.isSetCustomClaims]
  · unfold UserOrchestrator.createOwnerWithFirebase
    split
    · simp
    · split
      · simp [FbCall.isSetCustomClaims]
      · split <;> simp [FbCall.isSetCustomClaims]
  · unfold UserOrchestrator.deleteUser
    split
    · simp
    · split
      · simp
      · split
        · simp [FbCall.isSetCustomClaims]
        · split <;> simp [FbCall.isSetCustomClaims]
  · unfold UserOrchestrator.deleteOwner
    split
    · simp
    · split
      · simp
      · split
        · simp [FbCall.isSetCustomClaims]
        · split <;> simp [FbCall.isSetCustomClaims]

/-- Claim C6: whenever a delete workflow (User or Owner) reaches the branch
where the identity deletion failed after the local delete succeeded and the
compensating recreation also fails, the orchestrator raises the
data-inconsistency ApiError, whose message differs from the ordinary
"Failed to delete user" message raised when the recreation succeeds. -/
theorem delete_rollback_failure_distinct_error :
    (∀ (fb : Fb) (id : Nat) (db : Db) (u : StoredUser) (db1 : Db) (e : Err),
      UserService.getUserById id db = .ok u →
      UserService.deleteUser id db = .ok db1 →
      fb.deleteOk id = false →
      UserService.createUser ⟨u.id, u.ownerId, u.name, u.email, u.role, none⟩ db1 = .error e →
      (UserOrchestrator.deleteUser fb id db).result =
        .error (.api ⟨INTERNAL_SERVER_ERROR,
          "Failed to delete user and rollback failed. Data inconsistency detected."⟩)) ∧
    (∀ (fb : Fb) (id : Nat) (db : Db) (o : StoredOwner) (db1 : Db) (e : Err),
      OwnerService.getOwnerById id db = .ok o →
      OwnerService.deleteOwner id db = .ok db1 →
      fb.deleteOk id = false →
      OwnerService.createOwner ⟨o.id, o.name, o.email⟩ db1 = .error e →
      (UserOrchestrator.deleteOwner fb id db).result =
        .error (.api ⟨INTERNAL_SERVER_ERROR,
          "Failed to delete user and rollback failed. Data inconsistency detected."⟩)) ∧
    (("Failed to delete user and rollback failed. Data inconsistency detected." : String) ≠
      "Failed to delete user") := by
  refine ⟨?_, ?_, by decide⟩
  · intro fb id db u db1 e hget hdel hfb hre
    unfold UserOrchestrator.deleteUser
    simp only [hget, hdel, hfb, Bool.false_eq_true, if_false, hre]
  · intro fb id db o db1 e hget hdel hfb hre
    unfold UserOrchestrator.deleteOwner
    simp only [hget, hdel, hfb, Bool.false_eq_true, if_false, hre]

/-- Witness for delete_rollback_failure_distinct_error at concrete inputs
(two records sharing an email drive the recreation into Conflict). -/
theorem delete_rollback_failure_distinct_error_witness :
    (UserOrchestrator.deleteUser fbDeleteFails 2 c6DbUsers).result =
      .error (.api ⟨INTERNAL_SERVER_ERROR,
        "Failed to delete user and rollback failed. Data inconsistency detected."⟩) ∧
    (UserOrchestrator.deleteOwner fbDeleteFails 2 c6DbOwners).result =
      .error (.api ⟨INTERNAL_SERVER_ERROR,
        "Failed to delete user and rollback failed. Data inconsistency detected."⟩) ∧
    (("Failed to delete user and rollback failed. Data inconsistency detected." : String) ≠
      "Failed to delete user") :=
  ⟨delete_rollback_failure_distinct_error.1 fbDeleteFails 2 c6DbUsers
      ⟨2, 1, "Bob", "dup@example.com", .EMPLOYEE, none, 0⟩
      ⟨[⟨3, 1, "Eve", "dup@example.com", .EMPLOYEE, none, 0⟩], [], 5⟩
      (.api ⟨CONFLICT, "User with this email already exists"⟩)
      rfl rfl rfl rfl,
    delete_rollback_failure_distinct_error.2.1 fbDeleteFails 2 c6DbOwners
      ⟨2, "Bob", "dup@example.com", "OWNER", 0⟩
      ⟨[], [⟨3, "Eve", "dup@example.com", "OWNER", 0⟩], 5⟩
      (.api ⟨CONFLICT, "User with this email already exists"⟩)
      rfl rfl rfl rfl,
    delete_rollback_failure_distinct_error.2.2⟩

/-- Claim C2, amended: whenever a delete workflow (User or Owner) reaches
the branch where the identity deletion failed after the local delete
succeeded and the compensating recreation succeeds, the generic delete
error is raised and the local record exists again with the snapshot's id,
owning-owner reference, name, email and role - but with a freshly assigned
creation timestamp (the recreation payload omits createdAt, so the store
stamps the current clock), so round-trip equality holds for every stored
attribute except createdAt. -/
theorem delete_rollback_restores_fields :
    (∀ (fb : Fb) (id : Nat) (db : Db) (u : StoredUser) (db1 : Db) (r : StoredUser) (db2 : Db),
      UserService.getUserById id db = .ok u →
      UserService.deleteUser id db = .ok db1 →
      fb.deleteOk id = false →
      UserService.createUser ⟨u.id, u.ownerId, u.name, u.email, u.role, none⟩ db1 = .ok (r, db2) →
      (UserOrchestrator.deleteUser fb id db).result =
        .error (.api ⟨INTERNAL_SERVER_ERROR, "Failed to delete user"⟩) ∧
      UserService.getUserById id (UserOrchestrator.deleteUser fb id db).db =
        .ok ⟨u.id, u.ownerId, u.name, u.email, u.role, none, db1.clock⟩) ∧
    (∀ (fb : Fb) (id : Nat) (db : Db) (o : StoredOwner) (db1 : Db) (r : StoredOwner) (db2 : Db),
      OwnerService.getOwnerById id db = .ok o →
      OwnerService.deleteOwner id db = .ok db1 →
      fb.deleteOk id = false →
      OwnerService.createOwner ⟨o.id, o.name, o.email⟩ db1 = .ok (r, db2) →
      (UserOrchestrator.deleteOwner fb id db).result =
        .error (.api ⟨INTERNAL_SERVER_ERROR, "Failed to delete user"⟩) ∧
      OwnerService.getOwnerById id (UserOrchestrator.deleteOwner fb id db).db =
        .ok ⟨o.id, o.name, o.email, "OWNER", db1.clock⟩) := by
  constructor
  · intro fb id db u db1 r db2 hget hdel hfb hre
    have hdb1 : db1 = ⟨db.users.filter (fun x => !(x.id == id)), db.owners, db.clock⟩ := by
      unfold UserService.deleteUser at hdel
      split at hdel
      · injection hdel with h
        exact h.symm
      · exact Except.noConfusion hdel
    have husers : ∀ x ∈ db1.users, (x.id == id) = false := by
      intro x hx
      rw [hdb1] at hx
      simp only [List.mem_filter, Bool.not_eq_true'] at hx
      exact hx.2
    have hid : (u.id == id) = true := by
      unfold UserService.getUserById at hget
      cases hf : db.users.find? (fun rr => rr.id == id) with
      | none => rw [hf] at hget; exact Except.noConfusion hget
      | some w =>
        rw [hf] at hget
        simp only [Except.ok.injEq] at hget
        have hp := List.find?_some hf
        rw [← hget]
        exact hp
    have hshape : r = ⟨u.id, u.ownerId, u.name, u.email, u.role, none, db1.clock⟩ ∧
        db2 = ⟨db1.users ++ [⟨u.id, u.ownerId, u.name, u.email, u.role, none, db1.clock⟩],
          db1.owners, db1.clock + 1⟩ := by
      unfold UserService.createUser at hre
      split at hre
      · exact Except.noConfusion hre
      · simp only [Except.ok.injEq, Prod.mk.injEq] at hre
        exact ⟨hre.1.symm, hre.2.symm⟩
    have hrun : UserOrchestrator.deleteUser fb id db =
        ⟨.error (.api ⟨INTERNAL_SERVER_ERROR, "Failed to delete user"⟩), db2, [.deleteIdentity id]⟩ := by
      unfold UserOrchestrator.deleteUser
      simp only [hget, hdel, hfb, Bool.false_eq_true, if_false, hre]
    have hfind : (db1.users ++ [(⟨u.id, u.ownerId, u.name, u.email, u.role, none, db1.clock⟩ : StoredUser)]).find?
        (fun rr => rr.id == id) = some ⟨u.id, u.ownerId, u.name, u.email, u.role, none, db1.clock⟩ := by
      rw [find?_append_eq_right _ _ _ husers]
      simp only [List.find?]
      rw [hid]
    refine ⟨by rw [hrun], ?_⟩
    rw [hrun]
    show UserService.getUserById id db2 = _
    rw [hshape.2]
    unfold UserService.getUserById
    simp only [hfind]
  · intro fb id db o db1 r db2 hget hdel hfb hre
    have hdb1 : db1 = ⟨db.users, db.owners.filter (fun x => !(x.id == id)), db.clock⟩ := by
      unfold OwnerService.deleteOwner at hdel
      split at hdel
      · injection hdel with h
        exact h.symm
      · exact Except.noConfusion hdel
    have howners : ∀ x ∈ db1.owners, (x.id == id) = false := by
      intro x hx
      rw [hdb1] at hx
      simp only [List.mem_filter, Bool.not_eq_true'] at hx
      exact hx.2
    have hid : (o.id == id) = true := by
      unfold OwnerService.getOwnerById at hget
      cases hf : db.owners.find? (fun rr => rr.id == id) with
      | none => rw [hf] at hget; exact Except.noConfusion hget
      | some w =>
        rw [hf] at hget
        simp only [Except.ok.injEq] at hget
        have hp := List.find?_some hf
        rw [← hget]
        exact hp
    have hshape : r = ⟨o.id, o.name, o.email, "OWNER", db1.clock⟩ ∧
        db2 = ⟨db1.users, db1.owners ++ [⟨o.id, o.name, o.email, "OWNER", db1.clock⟩],
          db1.clock + 1⟩ := by
      unfold OwnerService.createOwner at hre
      split at hre
      · exact Except.noConfusion hre
      · simp only [Except.ok.injEq, Prod.mk.injEq] at hre
        exact ⟨hre.1.symm, hre.2.symm⟩
    have hrun : UserOrchestrator.deleteOwner fb id db =
        ⟨.error (.api ⟨INTERNAL_SERVER_ERROR, "Failed to delete user"⟩), db2, [.deleteIdentity id]⟩ := by
      unfold UserOrchestrator.deleteOwner
      simp only [hget, hdel, hfb, Bool.false_eq_true, if_false, hre]
    have hfind : (db1.owners ++ [(⟨o.id, o.name, o.email, "OWNER", db1.clock⟩ : StoredOwner)]).find?
        (fun rr => rr.id == id) = some ⟨o.id, o.name, o.email, "OWNER", db1.clock⟩ := by
      rw [find?_append_eq_right _ _ _ howners]
      simp only [List.find?]
      rw [hid]
    refine ⟨by rw [hrun], ?_⟩
    rw [hrun]
    show OwnerService.getOwnerById id db2 = _
    rw [hshape.2]
    unfold OwnerService.getOwnerById
    simp only [hfind]

/-- Witness for delete_rollback_restores_fields at concrete inputs. -/
theorem delete_rollback_restores_fields_witness :
    ((UserOrchestrator.deleteUser fbDeleteFails 2 c2Db).result =
        .error (.api ⟨INTERNAL_SERVER_ERROR, "Failed to delete user"⟩) ∧
      UserService.getUserById 2 (UserOrchestrator.deleteUser fbDeleteFails 2 c2Db).db =
        .ok ⟨2, 1, "Bob", "bob@example.com", .EMPLOYEE, none, 5⟩) ∧
    ((UserOrchestrator.deleteOwner fbDeleteFails 4 ⟨[], [⟨4, "Oya", "oya@example.com", "OWNER", 1⟩], 3⟩).result =
        .error (.api ⟨INTERNAL_SERVER_ERROR, "Failed to delete user"⟩) ∧
      OwnerService.getOwnerById 4 (UserOrchestrator.deleteOwner fbDeleteFails 4
          ⟨[], [⟨4, "Oya", "oya@example.com", "OWNER", 1⟩], 3⟩).db =
        .ok ⟨4, "Oya", "oya@example.com", "OWNER", 3⟩) :=
  ⟨delete_rollback_restores_fields.1 fbDeleteFails 2 c2Db
      ⟨2, 1, "Bob", "bob@example.com", .EMPLOYEE, none, 0⟩ ⟨[], [], 5⟩
      ⟨2, 1, "Bob", "bob@example.com", .EMPLOYEE, none, 5⟩
      ⟨[⟨2, 1, "Bob", "bob@example.com", .EMPLOYEE, none, 5⟩], [], 6⟩
      rfl rfl rfl rfl,
    delete_rollback_restores_fields.2 fbDeleteFails 4
      ⟨[], [⟨4, "Oya", "oya@example.com", "OWNER", 1⟩], 3⟩
      ⟨4, "Oya", "oya@example.com", "OWNER", 1⟩ ⟨[], [], 3⟩
      ⟨4, "Oya", "oya@example.com", "OWNER", 3⟩
      ⟨[], [⟨4, "Oya", "oya@example.com", "OWNER", 3⟩], 4⟩
      rfl rfl rfl rfl⟩

/-- Witness for owner_delete_endpoint_always_204 at a concrete input (an id
that exists in no store, so the workflow fails internally). -/
theorem owner_delete_endpoint_always_204_witness :
    (OwnerController.delete fbAllOk 5 emptyDb).1 = ⟨NO_CONTENT, none⟩ :=
  owner_delete_endpoint_always_204 fbAllOk 5 emptyDb

/-- Witness for no_set_custom_claims_ever at concrete inputs. -/
theorem no_set_custom_claims_ever_witness :
    ((UserOrchestrator.createEmployeeWithFirebase fbAllOk
      ⟨1, "Ann", "ann@example.com", .EMPLOYEE, none⟩ 9 emptyDb).calls.all
      (fun c => !c.isSetCustomClaims)) = true ∧
    ((UserOrchestrator.createOwnerWithFirebase fbAllOk
      ⟨"Oli", "oli@example.com", "Pw123456"⟩ 10 emptyDb).calls.all
      (fun c => !c.isSetCustomClaims)) = true ∧
    ((UserOrchestrator.deleteUser fbAllOk 11 emptyDb).calls.all
      (fun c => !c.isSetCustomClaims)) = true ∧
    ((UserOrchestrator.deleteOwner fbAllOk 12 emptyDb).calls.all
      (fun c => !c.isSetCustomClaims)) = true ∧
    (UserController.updateRole 13 .MANAGER emptyDb).2 = [] :=
  no_set_custom_claims_ever fbAllOk ⟨1, "Ann", "ann@example.com", .EMPLOYEE, none⟩
    ⟨"Oli", "oli@example.com", "Pw123456"⟩ 9 10 11 12 13 .MANAGER emptyDb
